import Mathlib

/-!
Scene viewer: render-loop state and parametric mesh generation.

Verification development for `3D Project Part 1/Source/main.cpp`.

* `SceneViewer` embeds the render loop of `main`: the seven boolean flags, the
  polygon mode, the program in use, the key handlers and the four render blocks.
* `MeshGeneration` holds the generator `GenerateParametricShapeFrom2D` and its
  seam-shared variant.  The header `mesh_generation.h` is not part of the
  sources at hand, so these definitions follow the written specification.
-/

namespace SceneViewer

/-- Value returned by `glfwGetKey` for one key. -/
inductive KeyState where
  | GLFW_RELEASE
  | GLFW_PRESS
  deriving DecidableEq, Repr

/-- Second argument of `glPolygonMode(GL_FRONT_AND_BACK, _)`. -/
inductive PolygonMode where
  | GL_LINE
  | GL_FILL
  deriving DecidableEq, Repr

/-- The shader programs created by `main`. -/
inductive Program where
  | scene_one
  | scene_two
  | scene_three
  | scene_four_obj1
  | scene_four_obj2
  | scene_four_obj3
  | scene_four_obj4
  | scene_five
  | scene_six
  deriving DecidableEq, Repr

/-- The vertex array objects created by `main`. -/
inductive VAOName where
  | sphereVAO
  | torusVAO
  | parametric_one_VAO
  | parametric_two_VAO
  deriving DecidableEq, Repr

/-- The four `if` blocks that issue draw calls (main.cpp lines 823, 871, 937, 985). -/
inductive RenderBlock where
  | scene_one_two_three
  | scene_four
  | scene_five
  | scene_six
  deriving DecidableEq, Repr

/-- The variables of `main` that live across iterations of the render loop,
together with the two pieces of GL state the loop writes. -/
structure LoopState where
  flag_q : Bool
  flag_w : Bool
  flag_e : Bool
  flag_r : Bool
  flag_t : Bool
  flag_y : Bool
  flag_init : Bool
  polygon_mode : PolygonMode
  current_program : Program
  u_transform_location : Program
  mouse_location : Program
  deriving DecidableEq, Repr

/-- What one iteration reads from outside: the six key states (lines 689-694) and
the outcome of the floating-point test `distance_bet >= 0.3 * 2` (line 949). -/
structure FrameInput where
  state_q : KeyState
  state_w : KeyState
  state_e : KeyState
  state_r : KeyState
  state_t : KeyState
  state_y : KeyState
  distance_far : Bool
  deriving DecidableEq, Repr

/-- One `glDrawElements` call, with the GL state it is issued under. -/
structure DrawCall where
  block : RenderBlock
  vao : VAOName
  program : Program
  polygon_mode : PolygonMode
  deriving DecidableEq, Repr

/-- State of one iteration while it runs: the loop state, the render blocks entered
so far and the draw calls issued so far. -/
structure FrameRun where
  state : LoopState
  executed : List RenderBlock
  draws : List DrawCall
  deriving DecidableEq, Repr

/-- State on entry to the loop: lines 173, 175, 670-671 and 674-680. -/
def initialState : LoopState :=
  { flag_q := false, flag_w := false, flag_e := false, flag_r := false,
    flag_t := false, flag_y := false, flag_init := false,
    polygon_mode := PolygonMode.GL_LINE,
    current_program := Program.scene_one,
    u_transform_location := Program.scene_one,
    mouse_location := Program.scene_four_obj1 }

/-- Lines 696-700: the init flag is raised when the six scene flags are all false. -/
def initFlagCheck (s : LoopState) : LoopState :=
  if s.flag_q = false ∧ s.flag_w = false ∧ s.flag_e = false ∧ s.flag_r = false
      ∧ s.flag_t = false ∧ s.flag_y = false then
    { s with flag_init := true }
  else s

/-- Lines 702-720: handler of key Q. -/
def sceneOneKey (k : FrameInput) (s : LoopState) : LoopState :=
  if k.state_q = KeyState.GLFW_PRESS then
    { s with
      flag_q := true, flag_w := false, flag_e := false, flag_r := false,
      flag_t := false, flag_y := false, flag_init := false,
      polygon_mode := PolygonMode.GL_LINE,
      u_transform_location := Program.scene_one,
      current_program := Program.scene_one }
  else s

/-- Lines 722-740: handler of key W. -/
def sceneTwoKey (k : FrameInput) (s : LoopState) : LoopState :=
  if k.state_w = KeyState.GLFW_PRESS then
    { s with
      flag_w := true, flag_q := false, flag_e := false, flag_r := false,
      flag_t := false, flag_y := false, flag_init := false,
      polygon_mode := PolygonMode.GL_FILL,
      u_transform_location := Program.scene_two,
      current_program := Program.scene_two }
  else s

/-- Lines 742-760: handler of key E. -/
def sceneThreeKey (k : FrameInput) (s : LoopState) : LoopState :=
  if k.state_e = KeyState.GLFW_PRESS then
    { s with
      flag_e := true, flag_w := false, flag_q := false, flag_r := false,
      flag_t := false, flag_y := false, flag_init := false,
      polygon_mode := PolygonMode.GL_FILL,
      u_transform_location := Program.scene_three,
      current_program := Program.scene_three }
  else s

/-- Lines 762-777: handler of key R. -/
def sceneFourKey (k : FrameInput) (s : LoopState) : LoopState :=
  if k.state_r = KeyState.GLFW_PRESS then
    { s with
      flag_r := true, flag_w := false, flag_e := false, flag_q := false,
      flag_t := false, flag_y := false, flag_init := false,
      polygon_mode := PolygonMode.GL_FILL }
  else s

/-- Lines 779-794: handler of key T. -/
def sceneFiveKey (k : FrameInput) (s : LoopState) : LoopState :=
  if k.state_t = KeyState.GLFW_PRESS then
    { s with
      flag_t := true, flag_w := false, flag_e := false, flag_r := false,
      flag_y := false, flag_q := false, flag_init := false,
      polygon_mode := PolygonMode.GL_FILL }
  else s

/-- Lines 796-815: handler of key Y. -/
def sceneSixKey (k : FrameInput) (s : LoopState) : LoopState :=
  if k.state_y = KeyState.GLFW_PRESS then
    { s with
      flag_y := true, flag_w := false, flag_e := false, flag_r := false,
      flag_t := false, flag_q := false, flag_init := false,
      polygon_mode := PolygonMode.GL_FILL,
      mouse_location := Program.scene_six,
      u_transform_location := Program.scene_six,
      current_program := Program.scene_six }
  else s

/-- Lines 696-815: the key-handling part of one iteration, in source order. -/
def keyHandling (k : FrameInput) (s : LoopState) : LoopState :=
  sceneSixKey k (sceneFiveKey k (sceneFourKey k (sceneThreeKey k
    (sceneTwoKey k (sceneOneKey k (initFlagCheck s))))))

/-- A `glDrawElements` call issued in block `b` under the GL state of `s`. -/
def drawElements (b : RenderBlock) (v : VAOName) (s : LoopState) : DrawCall :=
  { block := b, vao := v, program := s.current_program, polygon_mode := s.polygon_mode }

/-- Lines 822-868: the four-mesh block of scenes one to three. -/
def renderSceneOneTwoThree (r : FrameRun) : FrameRun :=
  if r.state.flag_init = true ∨ r.state.flag_q = true ∨ r.state.flag_w = true
      ∨ r.state.flag_e = true then
    { r with
      executed := r.executed ++ [RenderBlock.scene_one_two_three],
      draws := r.draws ++
        [ drawElements RenderBlock.scene_one_two_three VAOName.sphereVAO r.state,
          drawElements RenderBlock.scene_one_two_three VAOName.torusVAO r.state,
          drawElements RenderBlock.scene_one_two_three VAOName.parametric_one_VAO r.state,
          drawElements RenderBlock.scene_one_two_three VAOName.parametric_two_VAO r.state ] }
  else r

/-- Lines 870-934: the block of scene four, one program per mesh. -/
def renderSceneFour (r : FrameRun) : FrameRun :=
  if r.state.flag_r = true then
    let s1 : LoopState :=
      { r.state with
        mouse_location := Program.scene_four_obj1,
        u_transform_location := Program.scene_four_obj1,
        current_program := Program.scene_four_obj1 }
    let s2 : LoopState := { s1 with current_program := Program.scene_four_obj2 }
    let s3 : LoopState := { s2 with current_program := Program.scene_four_obj3 }
    let s4 : LoopState := { s3 with current_program := Program.scene_four_obj4 }
    { state := s4,
      executed := r.executed ++ [RenderBlock.scene_four],
      draws := r.draws ++
        [ drawElements RenderBlock.scene_four VAOName.sphereVAO s1,
          drawElements RenderBlock.scene_four VAOName.torusVAO s2,
          drawElements RenderBlock.scene_four VAOName.parametric_one_VAO s3,
          drawElements RenderBlock.scene_four VAOName.parametric_two_VAO s4 ] }
  else r

/-- Lines 936-982: the block of scene five, two spheres. -/
def renderSceneFive (k : FrameInput) (r : FrameRun) : FrameRun :=
  if r.state.flag_t = true then
    let s0 : LoopState := { r.state with mouse_location := Program.scene_five }
    let s1 : LoopState :=
      if k.distance_far = true then
        { s0 with
          u_transform_location := Program.scene_four_obj3,
          current_program := Program.scene_four_obj3 }
      else
        { s0 with
          u_transform_location := Program.scene_four_obj2,
          current_program := Program.scene_four_obj2 }
    let s2 : LoopState :=
      { s1 with
        u_transform_location := Program.scene_four_obj1,
        current_program := Program.scene_four_obj1 }
    { state := s2,
      executed := r.executed ++ [RenderBlock.scene_five],
      draws := r.draws ++
        [ drawElements RenderBlock.scene_five VAOName.sphereVAO s1,
          drawElements RenderBlock.scene_five VAOName.sphereVAO s2 ] }
  else r

/-- Lines 984-1002: the block of scene six. -/
def renderSceneSix (r : FrameRun) : FrameRun :=
  if r.state.flag_y = true then
    { r with
      executed := r.executed ++ [RenderBlock.scene_six],
      draws := r.draws ++
        [ drawElements RenderBlock.scene_six VAOName.parametric_two_VAO r.state ] }
  else r

/-- Lines 822-1002: the four render blocks in source order, started on the state
that the key handling left. -/
def renderBlocks (k : FrameInput) (s : LoopState) : FrameRun :=
  renderSceneSix (renderSceneFive k (renderSceneFour (renderSceneOneTwoThree
    { state := s, executed := [], draws := [] })))

/-- One iteration of the `while` loop of lines 683-1009. -/
def frame (k : FrameInput) (s : LoopState) : FrameRun :=
  renderBlocks k (keyHandling k s)

/-- The loop state after the iterations fed with `ks`, oldest first. -/
def runFrames (s : LoopState) (ks : List FrameInput) : LoopState :=
  ks.foldl (fun st k => (frame k st).state) s

/-- The state at the point of iteration `ks.length + 1` where the render blocks are
chosen: `ks` are the inputs of the iterations already finished, `k` the input of the
current one. -/
def renderPoint (ks : List FrameInput) (k : FrameInput) : LoopState :=
  keyHandling k (runFrames initialState ks)

/-- Number of scene flags that are true. -/
def sceneFlagCount (s : LoopState) : Nat :=
  [s.flag_q, s.flag_w, s.flag_e, s.flag_r, s.flag_t, s.flag_y].count true

/-- Some scene key is down in this input. -/
def anyScenePressed (k : FrameInput) : Bool :=
  decide (k.state_q = KeyState.GLFW_PRESS) || decide (k.state_w = KeyState.GLFW_PRESS)
    || decide (k.state_e = KeyState.GLFW_PRESS) || decide (k.state_r = KeyState.GLFW_PRESS)
    || decide (k.state_t = KeyState.GLFW_PRESS) || decide (k.state_y = KeyState.GLFW_PRESS)

end SceneViewer

namespace MeshGeneration

/-- A 2D point `(radius, height)` of a profile curve. -/
structure Vec2 (R : Type) where
  x : R
  y : R
  deriving DecidableEq, Repr

/-- A 3D position or normal vector. -/
structure Vec3 (R : Type) where
  x : R
  y : R
  z : R
  deriving DecidableEq, Repr

/-- The scalar arithmetic the generator runs on (single-precision floats in the
program), taken as a parameter: every result below holds for any choice of it. -/
structure ScalarOps (R : Type) where
  ofInt : Int → R
  sub : R → R → R
  mul : R → R → R
  div : R → R → R
  add : R → R → R
  sqrt : R → R
  cos : R → R
  sin : R → R
  two_pi : R
  usableLength : R → Bool

/-- A profile curve: normalized parameter to `(radius, height)`. -/
abbrev ProfileFunction (R : Type) : Type := R → Vec2 R

/-- The three output buffers that `main` passes by reference (lines 105-107). -/
structure MeshBuffers (R : Type) where
  positions : List (Vec3 R)
  normals : List (Vec3 R)
  indices : List Nat
  deriving DecidableEq, Repr

/-- The freshly constructed (or cleared) buffers of lines 105-107, 113-115, 120-122
and 127-129. -/
def emptyBuffers (R : Type) : MeshBuffers R :=
  { positions := [], normals := [], indices := [] }

/-- Modelled from the spec: outcome of a call of the generator, whose source
(`mesh_generation.h`) is missing; section 7 names the single failure
`InvalidArgument`. -/
inductive GenStatus where
  | Ok
  | InvalidArgument
  deriving DecidableEq, Repr

/-- Modelled from the spec: the revolved position of grid sample `(i, j)` of the
missing generator (section 4.1, steps 1 and 2): `t_i = i / profile_steps`,
`θ_j = 2π · j / revolution_steps`, `(r, h) = profile t_i`, position
`(r · cos θ_j, h, r · sin θ_j)`. -/
def revolvedPosition {R : Type} (ops : ScalarOps R) (profile : ProfileFunction R)
    (profile_steps revolution_steps : Nat) (i j : Int) : Vec3 R :=
  let t := ops.div (ops.ofInt i) (ops.ofInt profile_steps)
  let theta := ops.div (ops.mul ops.two_pi (ops.ofInt j)) (ops.ofInt revolution_steps)
  let p := profile t
  { x := ops.mul p.x (ops.cos theta), y := p.y, z := ops.mul p.x (ops.sin theta) }

/-- Componentwise difference of two vectors. -/
def Vec3.sub {R : Type} (ops : ScalarOps R) (a b : Vec3 R) : Vec3 R :=
  { x := ops.sub a.x b.x, y := ops.sub a.y b.y, z := ops.sub a.z b.z }

/-- Cross product. -/
def Vec3.cross {R : Type} (ops : ScalarOps R) (a b : Vec3 R) : Vec3 R :=
  { x := ops.sub (ops.mul a.y b.z) (ops.mul a.z b.y),
    y := ops.sub (ops.mul a.z b.x) (ops.mul a.x b.z),
    z := ops.sub (ops.mul a.x b.y) (ops.mul a.y b.x) }

/-- Euclidean length. -/
def Vec3.length {R : Type} (ops : ScalarOps R) (a : Vec3 R) : R :=
  ops.sqrt (ops.add (ops.add (ops.mul a.x a.x) (ops.mul a.y a.y)) (ops.mul a.z a.z))

/-- Modelled from the spec: the normal of grid sample `(i, j)` of the missing
generator (section 4.1, step 4), on the finite-difference path: central difference
of neighbouring samples along the profile, one-sided at `i = 0` and
`i = profile_steps`, crossed with the difference along the revolution, normalized;
a length that is not usable falls back to the axis direction. -/
def vertexNormal {R : Type} (ops : ScalarOps R) (profile : ProfileFunction R)
    (profile_steps revolution_steps : Nat) (i j : Nat) : Vec3 R :=
  let pos := revolvedPosition ops profile profile_steps revolution_steps
  let lo : Int := if i = 0 then 0 else (i : Int) - 1
  let hi : Int := if i = profile_steps then (i : Int) else (i : Int) + 1
  let profileTangent := Vec3.sub ops (pos hi j) (pos lo j)
  let revolutionTangent := Vec3.sub ops (pos i ((j : Int) + 1)) (pos i ((j : Int) - 1))
  let n := Vec3.cross ops profileTangent revolutionTangent
  let len := Vec3.length ops n
  if ops.usableLength len = true then
    { x := ops.div n.x len, y := ops.div n.y len, z := ops.div n.z len }
  else
    { x := ops.ofInt 0, y := ops.ofInt 1, z := ops.ofInt 0 }

/-- Modelled from the spec: position in the vertex buffers of grid sample `(i, j)`
of the missing primary generator, which stores one vertex per pair with
`j ∈ [0, revolution_steps]` (section 4.1, steps 1 and 3), row `i` after row `i - 1`. -/
def vertexIndex (revolution_steps i j : Nat) : Nat :=
  i * (revolution_steps + 1) + j

/-- Modelled from the spec: the position buffer of the missing primary generator,
one vertex per `(i, j)`, `i ∈ [0, profile_steps]`, `j ∈ [0, revolution_steps]`
(section 4.1, steps 1 to 3). -/
def gridPositions {R : Type} (ops : ScalarOps R) (profile : ProfileFunction R)
    (profile_steps revolution_steps : Nat) : List (Vec3 R) :=
  (List.range (profile_steps + 1)).flatMap fun (i : Nat) =>
    (List.range (revolution_steps + 1)).map fun (j : Nat) =>
      revolvedPosition ops profile profile_steps revolution_steps (i : Int) (j : Int)

/-- Modelled from the spec: the normal buffer of the missing primary generator, one
normal per stored vertex (section 3, section 4.1 step 4). -/
def gridNormals {R : Type} (ops : ScalarOps R) (profile : ProfileFunction R)
    (profile_steps revolution_steps : Nat) : List (Vec3 R) :=
  (List.range (profile_steps + 1)).flatMap fun i =>
    (List.range (revolution_steps + 1)).map fun j =>
      vertexNormal ops profile profile_steps revolution_steps i j

/-- Modelled from the spec: the six indices the missing primary generator emits for
grid quad `(i, j)` (section 4.1, step 5): triangle A = `(i,j), (i+1,j), (i+1,j+1)`,
triangle B = `(i,j), (i+1,j+1), (i,j+1)`. -/
def quadIndices (revolution_steps i j : Nat) : List Nat :=
  [ vertexIndex revolution_steps i j,
    vertexIndex revolution_steps (i + 1) j,
    vertexIndex revolution_steps (i + 1) (j + 1),
    vertexIndex revolution_steps i j,
    vertexIndex revolution_steps (i + 1) (j + 1),
    vertexIndex revolution_steps i (j + 1) ]

/-- Modelled from the spec: the index buffer of the missing primary generator, the
quads `i ∈ [0, profile_steps - 1]`, `j ∈ [0, revolution_steps - 1]` (section 4.1,
step 5). -/
def gridIndices (profile_steps revolution_steps : Nat) : List Nat :=
  (List.range profile_steps).flatMap fun i =>
    (List.range revolution_steps).flatMap fun j => quadIndices revolution_steps i j

/-- Modelled from the spec: the missing `GenerateParametricShapeFrom2D` of
`mesh_generation.h`, with the argument order of its calls in `main`.  Non-positive
step counts fail with `InvalidArgument` and return the buffers as they were
(section 4.1 preconditions, section 7); otherwise the mesh of section 4.1 is
pushed onto the buffers. -/
def GenerateParametricShapeFrom2D {R : Type} (ops : ScalarOps R)
    (buffers : MeshBuffers R) (profile : ProfileFunction R)
    (profile_steps revolution_steps : Int) : GenStatus × MeshBuffers R :=
  if profile_steps ≤ 0 ∨ revolution_steps ≤ 0 then
    (GenStatus.InvalidArgument, buffers)
  else
    (GenStatus.Ok,
      { positions := buffers.positions ++
          gridPositions ops profile profile_steps.toNat revolution_steps.toNat,
        normals := buffers.normals ++
          gridNormals ops profile profile_steps.toNat revolution_steps.toNat,
        indices := buffers.indices ++
          gridIndices profile_steps.toNat revolution_steps.toNat })

/-- Modelled from the spec: position in the vertex buffers of grid sample `(i, j)`
of the missing seam-shared generator, which stores `revolution_steps` vertices per
profile ring (section 4.2). -/
def vertexIndexV2 (revolution_steps i j : Nat) : Nat :=
  i * revolution_steps + j

/-- Modelled from the spec: the position buffer of the missing seam-shared
generator: `i ∈ [0, profile_steps]`, `j ∈ [0, revolution_steps - 1]`, the seam
column `j = revolution_steps` being shared with `j = 0` (section 4.2). -/
def gridPositionsV2 {R : Type} (ops : ScalarOps R) (profile : ProfileFunction R)
    (profile_steps revolution_steps : Nat) : List (Vec3 R) :=
  (List.range (profile_steps + 1)).flatMap fun (i : Nat) =>
    (List.range revolution_steps).map fun (j : Nat) =>
      revolvedPosition ops profile profile_steps revolution_steps (i : Int) (j : Int)

/-- Modelled from the spec: the normal buffer of the missing seam-shared generator,
one normal per stored vertex. -/
def gridNormalsV2 {R : Type} (ops : ScalarOps R) (profile : ProfileFunction R)
    (profile_steps revolution_steps : Nat) : List (Vec3 R) :=
  (List.range (profile_steps + 1)).flatMap fun i =>
    (List.range revolution_steps).map fun j =>
      vertexNormal ops profile profile_steps revolution_steps i j

/-- Modelled from the spec: the six indices the missing seam-shared generator emits
for grid quad `(i, j)`: the triangles of section 4.1 step 5 with the second column
`j + 1` wrapped modulo `revolution_steps` (section 4.2). -/
def quadIndicesV2 (revolution_steps i j : Nat) : List Nat :=
  [ vertexIndexV2 revolution_steps i j,
    vertexIndexV2 revolution_steps (i + 1) j,
    vertexIndexV2 revolution_steps (i + 1) ((j + 1) % revolution_steps),
    vertexIndexV2 revolution_steps i j,
    vertexIndexV2 revolution_steps (i + 1) ((j + 1) % revolution_steps),
    vertexIndexV2 revolution_steps i ((j + 1) % revolution_steps) ]

/-- Modelled from the spec: the index buffer of the missing seam-shared generator. -/
def gridIndicesV2 (profile_steps revolution_steps : Nat) : List Nat :=
  (List.range profile_steps).flatMap fun i =>
    (List.range revolution_steps).flatMap fun j => quadIndicesV2 revolution_steps i j

/-- Modelled from the spec: the missing `GenerateParametricShapeFrom2Dv2` of
`mesh_generation.h` (section 4.2), with the same contract and failure behaviour as
the primary generator. -/
def GenerateParametricShapeFrom2Dv2 {R : Type} (ops : ScalarOps R)
    (buffers : MeshBuffers R) (profile : ProfileFunction R)
    (profile_steps revolution_steps : Int) : GenStatus × MeshBuffers R :=
  if profile_steps ≤ 0 ∨ revolution_steps ≤ 0 then
    (GenStatus.InvalidArgument, buffers)
  else
    (GenStatus.Ok,
      { positions := buffers.positions ++
          gridPositionsV2 ops profile profile_steps.toNat revolution_steps.toNat,
        normals := buffers.normals ++
          gridNormalsV2 ops profile profile_steps.toNat revolution_steps.toNat,
        indices := buffers.indices ++
          gridIndicesV2 profile_steps.toNat revolution_steps.toNat })

/-- Exact rational arithmetic with stand-ins for the transcendental functions,
used to run the generator on concrete inputs. -/
def ratOps : ScalarOps Rat :=
  { ofInt := fun n => (n : Rat), sub := fun a b => a - b, mul := fun a b => a * b,
    div := fun a b => a / b, add := fun a b => a + b, sqrt := fun a => a,
    cos := fun a => 1 - a * a / 2, sin := fun a => a, two_pi := 6,
    usableLength := fun a => decide (a ≠ 0) }

/-- A concrete profile for running the generator: the straight line `(t, 1 - t)`. -/
def lineProfile : ProfileFunction Rat := fun t => { x := t, y := 1 - t }

end MeshGeneration

namespace SceneViewer

open MeshGeneration

/-- The profile functions of `mesh_generation.h` that `main` passes by name. -/
inductive ProfileName where
  | ParametricHalfCircle
  | ParametricCircle
  | ParametricSpikes
  deriving DecidableEq, Repr

/-- The two generator entry points that `main` calls. -/
inductive GeneratorName where
  | GenerateParametricShapeFrom2D
  | GenerateParametricShapeFrom2Dv2
  deriving DecidableEq, Repr

/-- One generator call of `main`: entry point, profile and the two step counts. -/
structure GeneratorCall where
  generator : GeneratorName
  profile : ProfileName
  profile_steps : Int
  revolution_steps : Int
  deriving DecidableEq, Repr

/-- The generator calls of `main`, lines 110, 117, 124 and 131, in source order. -/
def mainGeneratorCalls : List GeneratorCall :=
  [ { generator := GeneratorName.GenerateParametricShapeFrom2D,
      profile := ProfileName.ParametricHalfCircle,
      profile_steps := 16, revolution_steps := 16 },
    { generator := GeneratorName.GenerateParametricShapeFrom2D,
      profile := ProfileName.ParametricCircle,
      profile_steps := 16, revolution_steps := 16 },
    { generator := GeneratorName.GenerateParametricShapeFrom2D,
      profile := ProfileName.ParametricSpikes,
      profile_steps := 64, revolution_steps := 32 },
    { generator := GeneratorName.GenerateParametricShapeFrom2Dv2,
      profile := ProfileName.ParametricSpikes,
      profile_steps := 1024, revolution_steps := 1024 } ]

/-- Outcome of one generator call of `main`.  Every call is made on empty buffers:
they are fresh at line 110 and cleared before lines 117, 124 and 131.  The profile
functions live in the missing header and are taken as the parameter `profiles`. -/
def runGeneratorCall {R : Type} (ops : ScalarOps R)
    (profiles : ProfileName → ProfileFunction R) (c : GeneratorCall) :
    GenStatus × MeshBuffers R :=
  match c.generator with
  | GeneratorName.GenerateParametricShapeFrom2D =>
      GenerateParametricShapeFrom2D ops (emptyBuffers R) (profiles c.profile)
        c.profile_steps c.revolution_steps
  | GeneratorName.GenerateParametricShapeFrom2Dv2 =>
      GenerateParametricShapeFrom2Dv2 ops (emptyBuffers R) (profiles c.profile)
        c.profile_steps c.revolution_steps

end SceneViewer

namespace SceneViewer

/-- What holds of the loop state where the render blocks are chosen: at most one
scene flag, the init flag only with no scene flag, and the polygon mode matching
the flags. -/
def RenderPointInvariant (s : LoopState) : Prop :=
  sceneFlagCount s ≤ 1
  ∧ (s.flag_init = true → s.flag_q = false ∧ s.flag_w = false ∧ s.flag_e = false
      ∧ s.flag_r = false ∧ s.flag_t = false ∧ s.flag_y = false)
  ∧ (s.polygon_mode = PolygonMode.GL_LINE ↔ (s.flag_init = true ∨ s.flag_q = true))
  ∧ (s.polygon_mode = PolygonMode.GL_FILL ↔
      (s.flag_w = true ∨ s.flag_e = true ∨ s.flag_r = true ∨ s.flag_t = true
        ∨ s.flag_y = true))

/-- State on entry to an iteration: that of loop entry (nothing raised yet,
wireframe on) or one that a previous iteration left. -/
def LoopInvariant (s : LoopState) : Prop :=
  RenderPointInvariant s
  ∨ (sceneFlagCount s = 0 ∧ s.flag_init = false ∧ s.polygon_mode = PolygonMode.GL_LINE)

/-- A scene key has been handled: some scene flag is up and the init flag is down. -/
def SceneChosen (s : LoopState) : Prop :=
  1 ≤ sceneFlagCount s ∧ s.flag_init = false

end SceneViewer

namespace SceneViewer

/-- An iteration input with no scene key down. -/
def noKeyInput : FrameInput :=
  { state_q := KeyState.GLFW_RELEASE, state_w := KeyState.GLFW_RELEASE,
    state_e := KeyState.GLFW_RELEASE, state_r := KeyState.GLFW_RELEASE,
    state_t := KeyState.GLFW_RELEASE, state_y := KeyState.GLFW_RELEASE,
    distance_far := false }

/-- An iteration input with only Q down. -/
def keyQInput : FrameInput := { noKeyInput with state_q := KeyState.GLFW_PRESS }

/-- An iteration input with only W down. -/
def keyWInput : FrameInput := { noKeyInput with state_w := KeyState.GLFW_PRESS }

/-- An iteration input with only T down. -/
def keyTInput : FrameInput := { noKeyInput with state_t := KeyState.GLFW_PRESS }

/-- An iteration input with Q, E and T down together. -/
def keyQETInput : FrameInput :=
  { noKeyInput with
    state_q := KeyState.GLFW_PRESS, state_e := KeyState.GLFW_PRESS,
    state_t := KeyState.GLFW_PRESS }

/-- The six scene flags in the order Q, W, E, R, T, Y. -/
def sceneFlags (s : LoopState) : List Bool :=
  [s.flag_q, s.flag_w, s.flag_e, s.flag_r, s.flag_t, s.flag_y]

end SceneViewer

namespace MeshGeneration

/-! ### Lists built from chunks of one length -/

theorem length_flatMap_const {α β : Type} (f : α → List β) (c : Nat) :
    ∀ (l : List α), (∀ a ∈ l, (f a).length = c) → (l.flatMap f).length = c * l.length
  | [], _ => by simp
  | a :: l, hc => by
      have ih := length_flatMap_const f c l (fun b hb => hc b (List.mem_cons_of_mem a hb))
      have ha := hc a (List.mem_cons_self a l)
      simp only [List.flatMap_cons, List.length_append, List.length_cons, ih, ha]
      ring

theorem chunk_flatMap_const {α β : Type} (f : α → List β) (c : Nat) :
    ∀ (l : List α), (∀ a ∈ l, (f a).length = c) → ∀ (k : Nat) (hk : k < l.length),
      ((l.flatMap f).drop (c * k)).take c = f (l.get ⟨k, hk⟩)
  | [], _, k, hk => by simp at hk
  | a :: l, hc, 0, _ => by
      have ha := hc a (List.mem_cons_self a l)
      simp only [List.flatMap_cons, Nat.mul_zero, List.drop_zero, List.get_eq_getElem,
        List.getElem_cons_zero]
      exact List.take_left' ha
  | a :: l, hc, k + 1, hk => by
      have ha := hc a (List.mem_cons_self a l)
      have hk2 : k < l.length := by simpa using hk
      have ih := chunk_flatMap_const f c l
        (fun b hb => hc b (List.mem_cons_of_mem a hb)) k hk2
      have hsplit : c * (k + 1) = (f a).length + c * k := by rw [ha, Nat.mul_succ]; omega
      simp only [List.flatMap_cons, hsplit, List.drop_append]
      simpa using ih

theorem length_range_flatMap {β : Type} (f : Nat → List β) (c n : Nat)
    (hc : ∀ a, a < n → (f a).length = c) :
    ((List.range n).flatMap f).length = c * n := by
  rw [length_flatMap_const f c (List.range n) (fun a ha => hc a (List.mem_range.mp ha))]
  simp

theorem chunk_range_flatMap {β : Type} (f : Nat → List β) (c n : Nat)
    (hc : ∀ a, a < n → (f a).length = c) (k : Nat) (hk : k < n) :
    (((List.range n).flatMap f).drop (c * k)).take c = f k := by
  have hk2 : k < (List.range n).length := by simpa using hk
  rw [chunk_flatMap_const f c (List.range n)
    (fun a ha => hc a (List.mem_range.mp ha)) k hk2]
  simp

theorem getElem?_of_chunk {β : Type} (l : List β) (c k t : Nat) (ch : List β)
    (h : (l.drop (c * k)).take c = ch) (ht : t < c) :
    l[c * k + t]? = ch[t]? := by
  rw [← h, List.getElem?_take_of_lt ht, List.getElem?_drop]

theorem chunk_of_getElem? {β : Type} (l : List β) (n c : Nat) (ch : List β)
    (hlen : ch.length = c) (h : ∀ t, t < c → l[n + t]? = ch[t]?) :
    (l.drop n).take c = ch := by
  apply List.ext_getElem?
  intro t
  by_cases ht : t < c
  · rw [List.getElem?_take_of_lt ht, List.getElem?_drop, h t ht]
  · have h1 : ch[t]? = none := List.getElem?_eq_none (by omega)
    have h2 : ((l.drop n).take c)[t]? = none :=
      List.getElem?_eq_none (by rw [List.length_take]; omega)
    rw [h1, h2]

theorem getElem?_grid {β : Type} (g : Nat → Nat → β) (n m i j : Nat)
    (hi : i < n) (hj : j < m) :
    ((List.range n).flatMap fun a => (List.range m).map (g a))[i * m + j]? = some (g i j) := by
  have row := chunk_range_flatMap (fun a => (List.range m).map (g a)) m n
    (fun a _ => by simp) i hi
  have h1 := getElem?_of_chunk _ m i j _ row hj
  rw [Nat.mul_comm i m, h1]
  simp [List.getElem?_range hj]

theorem length_grid {β : Type} (g : Nat → Nat → β) (n m : Nat) :
    ((List.range n).flatMap fun a => (List.range m).map (g a)).length = n * m := by
  rw [length_range_flatMap _ m n (fun a _ => by simp), Nat.mul_comm]

theorem chunk_grid_flatMap {β : Type} (q : Nat → Nat → List β) (c n m i j : Nat)
    (hq : ∀ a b, (q a b).length = c) (hi : i < n) (hj : j < m) :
    (((List.range n).flatMap fun a => (List.range m).flatMap (q a)).drop
      (c * (i * m + j))).take c = q i j := by
  apply chunk_of_getElem? _ _ c _ (hq i j)
  intro t ht
  have hrow : ∀ a, a < n → ((List.range m).flatMap (q a)).length = c * m :=
    fun a _ => length_range_flatMap (q a) c m (fun b _ => hq a b)
  have row := chunk_range_flatMap (fun a => (List.range m).flatMap (q a)) (c * m) n hrow i hi
  have hlt : c * j + t < c * m := by
    have : c * (j + 1) ≤ c * m := Nat.mul_le_mul_left c hj
    rw [Nat.mul_succ] at this
    omega
  have h1 := getElem?_of_chunk _ (c * m) i (c * j + t) _ row hlt
  have quad := chunk_range_flatMap (q i) c m (fun b _ => hq i b) j hj
  have h2 := getElem?_of_chunk _ c j t _ quad ht
  have hidx : c * (i * m + j) + t = c * m * i + (c * j + t) := by ring
  rw [hidx, h1, h2]

theorem length_grid_flatMap {β : Type} (q : Nat → Nat → List β) (c n m : Nat)
    (hq : ∀ a b, (q a b).length = c) :
    ((List.range n).flatMap fun a => (List.range m).flatMap (q a)).length = c * n * m := by
  rw [length_range_flatMap _ (c * m) n
    (fun a _ => length_range_flatMap (q a) c m (fun b _ => hq a b))]
  ring

/-! ### The buffers of the two generators -/

theorem gridPositions_length {R : Type} (ops : ScalarOps R) (profile : ProfileFunction R)
    (ps rs : Nat) : (gridPositions ops profile ps rs).length = (ps + 1) * (rs + 1) :=
  length_grid (fun a b => revolvedPosition ops profile ps rs a b) _ _

theorem gridNormals_length {R : Type} (ops : ScalarOps R) (profile : ProfileFunction R)
    (ps rs : Nat) : (gridNormals ops profile ps rs).length = (ps + 1) * (rs + 1) :=
  length_grid _ _ _

theorem gridPositionsV2_length {R : Type} (ops : ScalarOps R) (profile : ProfileFunction R)
    (ps rs : Nat) : (gridPositionsV2 ops profile ps rs).length = (ps + 1) * rs :=
  length_grid (fun a b => revolvedPosition ops profile ps rs a b) _ _

theorem gridNormalsV2_length {R : Type} (ops : ScalarOps R) (profile : ProfileFunction R)
    (ps rs : Nat) : (gridNormalsV2 ops profile ps rs).length = (ps + 1) * rs :=
  length_grid _ _ _

theorem gridIndices_length (ps rs : Nat) : (gridIndices ps rs).length = 6 * ps * rs :=
  length_grid_flatMap _ 6 ps rs (fun _ _ => rfl)

theorem gridIndicesV2_length (ps rs : Nat) : (gridIndicesV2 ps rs).length = 6 * ps * rs :=
  length_grid_flatMap _ 6 ps rs (fun _ _ => rfl)

theorem vertexIndex_lt (ps rs i j : Nat) (hi : i ≤ ps) (hj : j ≤ rs) :
    vertexIndex rs i j < (ps + 1) * (rs + 1) := by
  unfold vertexIndex
  have h := Nat.mul_le_mul_right (rs + 1) hi
  have e : (ps + 1) * (rs + 1) = ps * (rs + 1) + (rs + 1) := by ring
  omega

theorem vertexIndexV2_lt (ps rs i j : Nat) (hi : i ≤ ps) (hj : j < rs) :
    vertexIndexV2 rs i j < (ps + 1) * rs := by
  unfold vertexIndexV2
  have h := Nat.mul_le_mul_right rs hi
  have e : (ps + 1) * rs = ps * rs + rs := by ring
  omega

theorem gridIndices_bound (ps rs x : Nat) (hx : x ∈ gridIndices ps rs) :
    x < (ps + 1) * (rs + 1) := by
  simp only [gridIndices, List.mem_flatMap, List.mem_range] at hx
  obtain ⟨i, hi, j, hj, hq⟩ := hx
  simp only [quadIndices, List.mem_cons, List.mem_singleton, List.not_mem_nil, or_false] at hq
  rcases hq with h | h | h | h | h | h <;> rw [h] <;>
    exact vertexIndex_lt ps rs _ _ (by omega) (by omega)

theorem gridIndicesV2_bound (ps rs x : Nat) (hx : x ∈ gridIndicesV2 ps rs) :
    x < (ps + 1) * rs := by
  simp only [gridIndicesV2, List.mem_flatMap, List.mem_range] at hx
  obtain ⟨i, hi, j, hj, hq⟩ := hx
  have hm : (j + 1) % rs < rs := Nat.mod_lt _ (by omega)
  simp only [quadIndicesV2, List.mem_cons, List.mem_singleton, List.not_mem_nil, or_false] at hq
  rcases hq with h | h | h | h | h | h <;> rw [h] <;>
    exact vertexIndexV2_lt ps rs _ _ (by omega) (by omega)

theorem generate_valid {R : Type} (ops : ScalarOps R) (profile : ProfileFunction R)
    (ps rs : Nat) (hp : 1 ≤ ps) (hr : 1 ≤ rs) :
    GenerateParametricShapeFrom2D ops (emptyBuffers R) profile (ps : Int) (rs : Int) =
      (GenStatus.Ok,
        { positions := gridPositions ops profile ps rs,
          normals := gridNormals ops profile ps rs,
          indices := gridIndices ps rs }) := by
  have h : ¬ ((ps : Int) ≤ 0 ∨ (rs : Int) ≤ 0) := by omega
  unfold GenerateParametricShapeFrom2D
  rw [if_neg h]
  simp [emptyBuffers]

theorem generateV2_valid {R : Type} (ops : ScalarOps R) (profile : ProfileFunction R)
    (ps rs : Nat) (hp : 1 ≤ ps) (hr : 1 ≤ rs) :
    GenerateParametricShapeFrom2Dv2 ops (emptyBuffers R) profile (ps : Int) (rs : Int) =
      (GenStatus.Ok,
        { positions := gridPositionsV2 ops profile ps rs,
          normals := gridNormalsV2 ops profile ps rs,
          indices := gridIndicesV2 ps rs }) := by
  have h : ¬ ((ps : Int) ≤ 0 ∨ (rs : Int) ≤ 0) := by omega
  unfold GenerateParametricShapeFrom2Dv2
  rw [if_neg h]
  simp [emptyBuffers]

end MeshGeneration

namespace MeshGeneration

theorem generate_status {R : Type} (ops : ScalarOps R) (buffers : MeshBuffers R)
    (profile : ProfileFunction R) (ps rs : Int) (hp : 1 ≤ ps) (hr : 1 ≤ rs) :
    (GenerateParametricShapeFrom2D ops buffers profile ps rs).1 = GenStatus.Ok := by
  have h : ¬ (ps ≤ 0 ∨ rs ≤ 0) := by omega
  unfold GenerateParametricShapeFrom2D
  rw [if_neg h]

theorem generateV2_status {R : Type} (ops : ScalarOps R) (buffers : MeshBuffers R)
    (profile : ProfileFunction R) (ps rs : Int) (hp : 1 ≤ ps) (hr : 1 ≤ rs) :
    (GenerateParametricShapeFrom2Dv2 ops buffers profile ps rs).1 = GenStatus.Ok := by
  have h : ¬ (ps ≤ 0 ∨ rs ≤ 0) := by omega
  unfold GenerateParametricShapeFrom2Dv2
  rw [if_neg h]

theorem quad_of_block (ps rs q : Nat) (hq : q < ps * rs) :
    q / rs < ps ∧ q % rs < rs ∧ q / rs * rs + q % rs = q := by
  have hrs : 0 < rs := by
    rcases Nat.eq_zero_or_pos rs with h | h
    · rw [h] at hq; simp at hq
    · exact h
  refine ⟨Nat.div_lt_of_lt_mul (by rw [Nat.mul_comm]; exact hq), Nat.mod_lt _ hrs, ?_⟩
  rw [Nat.mul_comm]
  exact Nat.div_add_mod q rs

/-! ### Claims on the generator -/

/-- C1: for every profile function and all step counts `profile_steps ≥ 1`,
`revolution_steps ≥ 1`, the index buffer that `GenerateParametricShapeFrom2D` (and
likewise `GenerateParametricShapeFrom2Dv2`) produces has exactly
`6 * profile_steps * revolution_steps` entries, and every entry is smaller than the
number of positions produced by the same call. -/
theorem index_count_and_bounds {R : Type} (ops : ScalarOps R) (profile : ProfileFunction R)
    (profile_steps revolution_steps : Nat)
    (hp : 1 ≤ profile_steps) (hr : 1 ≤ revolution_steps) :
    ((GenerateParametricShapeFrom2D ops (emptyBuffers R) profile
        profile_steps revolution_steps).2.indices.length
        = 6 * profile_steps * revolution_steps
      ∧ ∀ x ∈ (GenerateParametricShapeFrom2D ops (emptyBuffers R) profile
          profile_steps revolution_steps).2.indices,
        x < (GenerateParametricShapeFrom2D ops (emptyBuffers R) profile
          profile_steps revolution_steps).2.positions.length)
    ∧ ((GenerateParametricShapeFrom2Dv2 ops (emptyBuffers R) profile
        profile_steps revolution_steps).2.indices.length
        = 6 * profile_steps * revolution_steps
      ∧ ∀ x ∈ (GenerateParametricShapeFrom2Dv2 ops (emptyBuffers R) profile
          profile_steps revolution_steps).2.indices,
        x < (GenerateParametricShapeFrom2Dv2 ops (emptyBuffers R) profile
          profile_steps revolution_steps).2.positions.length) := by
  rw [generate_valid ops profile _ _ hp hr, generateV2_valid ops profile _ _ hp hr]
  refine ⟨⟨gridIndices_length _ _, ?_⟩, ⟨gridIndicesV2_length _ _, ?_⟩⟩
  · intro x hx
    show x < (gridPositions ops profile profile_steps revolution_steps).length
    rw [gridPositions_length]
    exact gridIndices_bound _ _ x hx
  · intro x hx
    show x < (gridPositionsV2 ops profile profile_steps revolution_steps).length
    rw [gridPositionsV2_length]
    exact gridIndicesV2_bound _ _ x hx

/-- Witness of C1: the line profile with 2 profile steps and 4 revolution steps. -/
theorem index_count_and_bounds_witness :
    (1 ≤ 2 ∧ 1 ≤ 4)
    ∧ ((GenerateParametricShapeFrom2D ratOps (emptyBuffers Rat) lineProfile
        (2 : Nat) (4 : Nat)).2.indices.length = 6 * 2 * 4
      ∧ ∀ x ∈ (GenerateParametricShapeFrom2D ratOps (emptyBuffers Rat) lineProfile
          (2 : Nat) (4 : Nat)).2.indices,
        x < (GenerateParametricShapeFrom2D ratOps (emptyBuffers Rat) lineProfile
          (2 : Nat) (4 : Nat)).2.positions.length)
    ∧ ((GenerateParametricShapeFrom2Dv2 ratOps (emptyBuffers Rat) lineProfile
        (2 : Nat) (4 : Nat)).2.indices.length = 6 * 2 * 4
      ∧ ∀ x ∈ (GenerateParametricShapeFrom2Dv2 ratOps (emptyBuffers Rat) lineProfile
          (2 : Nat) (4 : Nat)).2.indices,
        x < (GenerateParametricShapeFrom2Dv2 ratOps (emptyBuffers Rat) lineProfile
          (2 : Nat) (4 : Nat)).2.positions.length) :=
  ⟨⟨by decide, by decide⟩,
    index_count_and_bounds ratOps lineProfile 2 4 (by decide) (by decide)⟩

/-- C2: for every profile function and all valid step counts, the primary generator
started on empty buffers succeeds and produces exactly
`(profile_steps + 1) * (revolution_steps + 1)` positions and the same number of
normals; with `profile_steps = 2` and `revolution_steps = 4` (for the half-circle
profile as for any other) that is 15 vertices. -/
theorem primary_vertex_count {R : Type} (ops : ScalarOps R) (profile : ProfileFunction R)
    (profile_steps revolution_steps : Nat)
    (hp : 1 ≤ profile_steps) (hr : 1 ≤ revolution_steps) :
    (GenerateParametricShapeFrom2D ops (emptyBuffers R) profile
        profile_steps revolution_steps).1 = GenStatus.Ok
    ∧ (GenerateParametricShapeFrom2D ops (emptyBuffers R) profile
        profile_steps revolution_steps).2.positions.length
        = (profile_steps + 1) * (revolution_steps + 1)
    ∧ (GenerateParametricShapeFrom2D ops (emptyBuffers R) profile
        profile_steps revolution_steps).2.normals.length
        = (GenerateParametricShapeFrom2D ops (emptyBuffers R) profile
            profile_steps revolution_steps).2.positions.length
    ∧ (GenerateParametricShapeFrom2D ops (emptyBuffers R) profile 2 4).2.positions.length = 15
    ∧ (GenerateParametricShapeFrom2D ops (emptyBuffers R) profile 2 4).2.normals.length = 15 := by
  have h24 := generate_valid ops profile 2 4 (by decide) (by decide)
  simp only [Nat.cast_ofNat] at h24
  rw [generate_valid ops profile _ _ hp hr, h24]
  refine ⟨rfl, gridPositions_length _ _ _ _, ?_, ?_, ?_⟩
  · show (gridNormals ops profile profile_steps revolution_steps).length
      = (gridPositions ops profile profile_steps revolution_steps).length
    rw [gridNormals_length, gridPositions_length]
  · exact gridPositions_length ops profile 2 4
  · exact gridNormals_length ops profile 2 4

/-- Witness of C2: the line profile with 3 profile steps and 5 revolution steps. -/
theorem primary_vertex_count_witness :
    (1 ≤ 3 ∧ 1 ≤ 5)
    ∧ (GenerateParametricShapeFrom2D ratOps (emptyBuffers Rat) lineProfile
        (3 : Nat) (5 : Nat)).1 = GenStatus.Ok
    ∧ (GenerateParametricShapeFrom2D ratOps (emptyBuffers Rat) lineProfile
        (3 : Nat) (5 : Nat)).2.positions.length = (3 + 1) * (5 + 1)
    ∧ (GenerateParametricShapeFrom2D ratOps (emptyBuffers Rat) lineProfile
        (3 : Nat) (5 : Nat)).2.normals.length
        = (GenerateParametricShapeFrom2D ratOps (emptyBuffers Rat) lineProfile
            (3 : Nat) (5 : Nat)).2.positions.length
    ∧ (GenerateParametricShapeFrom2D ratOps (emptyBuffers Rat) lineProfile 2 4).2.positions.length
        = 15
    ∧ (GenerateParametricShapeFrom2D ratOps (emptyBuffers Rat) lineProfile 2 4).2.normals.length
        = 15 :=
  ⟨⟨by decide, by decide⟩,
    primary_vertex_count ratOps lineProfile 3 5 (by decide) (by decide)⟩

end MeshGeneration

namespace MeshGeneration

/-- C3: for every profile function and all valid step counts, the seam-shared
generator `GenerateParametricShapeFrom2Dv2` produces exactly
`(profile_steps + 1) * revolution_steps` vertices (positions and normals); every
stored vertex is the sample of a column `j < revolution_steps`, so there is no
separate vertex for `j = revolution_steps`; and the six indices of the quad at
`(i, j)` take their second column at `(j + 1) % revolution_steps`. -/
theorem seam_shared_vertices_and_wrap {R : Type} (ops : ScalarOps R)
    (profile : ProfileFunction R) (profile_steps revolution_steps : Nat)
    (hp : 1 ≤ profile_steps) (hr : 1 ≤ revolution_steps) :
    (GenerateParametricShapeFrom2Dv2 ops (emptyBuffers R) profile
        profile_steps revolution_steps).2.positions.length
        = (profile_steps + 1) * revolution_steps
    ∧ (GenerateParametricShapeFrom2Dv2 ops (emptyBuffers R) profile
        profile_steps revolution_steps).2.normals.length
        = (profile_steps + 1) * revolution_steps
    ∧ (∀ n, n < (profile_steps + 1) * revolution_steps →
        n / revolution_steps ≤ profile_steps ∧ n % revolution_steps < revolution_steps
        ∧ (GenerateParametricShapeFrom2Dv2 ops (emptyBuffers R) profile
            profile_steps revolution_steps).2.positions[n]?
          = some (revolvedPosition ops profile profile_steps revolution_steps
              ((n / revolution_steps : Nat) : Int) ((n % revolution_steps : Nat) : Int)))
    ∧ (∀ i j, i < profile_steps → j < revolution_steps →
        (((GenerateParametricShapeFrom2Dv2 ops (emptyBuffers R) profile
            profile_steps revolution_steps).2.indices.drop
              (6 * (i * revolution_steps + j))).take 6
          = [ i * revolution_steps + j,
              (i + 1) * revolution_steps + j,
              (i + 1) * revolution_steps + (j + 1) % revolution_steps,
              i * revolution_steps + j,
              (i + 1) * revolution_steps + (j + 1) % revolution_steps,
              i * revolution_steps + (j + 1) % revolution_steps ])) := by
  rw [generateV2_valid ops profile _ _ hp hr]
  refine ⟨gridPositionsV2_length _ _ _ _, gridNormalsV2_length _ _ _ _, ?_, ?_⟩
  · intro n hn
    obtain ⟨h1, h2, h3⟩ := quad_of_block (profile_steps + 1) revolution_steps n hn
    refine ⟨by omega, h2, ?_⟩
    show (gridPositionsV2 ops profile profile_steps revolution_steps)[n]? = _
    have h := getElem?_grid
      (fun a b => revolvedPosition ops profile profile_steps revolution_steps (a : Int) (b : Int))
      (profile_steps + 1) revolution_steps (n / revolution_steps) (n % revolution_steps) h1 h2
    rw [h3] at h
    exact h
  · intro i j hi hj
    exact chunk_grid_flatMap (fun a b => quadIndicesV2 revolution_steps a b) 6
      profile_steps revolution_steps i j (fun _ _ => rfl) hi hj

/-- Witness of C3: the line profile with 1 profile step and 3 revolution steps. -/
theorem seam_shared_vertices_and_wrap_witness :
    (1 ≤ 1 ∧ 1 ≤ 3)
    ∧ (GenerateParametricShapeFrom2Dv2 ratOps (emptyBuffers Rat) lineProfile
        (1 : Nat) (3 : Nat)).2.positions.length = (1 + 1) * 3
    ∧ (GenerateParametricShapeFrom2Dv2 ratOps (emptyBuffers Rat) lineProfile
        (1 : Nat) (3 : Nat)).2.indices = [0, 3, 4, 0, 4, 1, 1, 4, 5, 1, 5, 2, 2, 5, 3, 2, 3, 0]
    ∧ (((GenerateParametricShapeFrom2Dv2 ratOps (emptyBuffers Rat) lineProfile
        (1 : Nat) (3 : Nat)).2.indices.drop (6 * (0 * 3 + 2))).take 6
        = [0 * 3 + 2, (0 + 1) * 3 + 2, (0 + 1) * 3 + (2 + 1) % 3,
           0 * 3 + 2, (0 + 1) * 3 + (2 + 1) % 3, 0 * 3 + (2 + 1) % 3]) :=
  ⟨⟨by decide, by decide⟩,
    (seam_shared_vertices_and_wrap ratOps lineProfile 1 3 (by decide) (by decide)).1,
    by decide,
    (seam_shared_vertices_and_wrap ratOps lineProfile 1 3 (by decide) (by decide)).2.2.2
      0 2 (by decide) (by decide)⟩

/-- C4: a call of either generator with `profile_steps ≤ 0` or
`revolution_steps ≤ 0` fails with `InvalidArgument` and hands back the position,
normal and index buffers exactly as they were passed in. -/
theorem invalid_argument_leaves_buffers {R : Type} (ops : ScalarOps R)
    (buffers : MeshBuffers R) (profile : ProfileFunction R)
    (profile_steps revolution_steps : Int)
    (h : profile_steps ≤ 0 ∨ revolution_steps ≤ 0) :
    GenerateParametricShapeFrom2D ops buffers profile profile_steps revolution_steps
        = (GenStatus.InvalidArgument, buffers)
    ∧ GenerateParametricShapeFrom2Dv2 ops buffers profile profile_steps revolution_steps
        = (GenStatus.InvalidArgument, buffers) := by
  unfold GenerateParametricShapeFrom2D GenerateParametricShapeFrom2Dv2
  rw [if_pos h, if_pos h]
  exact ⟨rfl, rfl⟩

/-- Witness of C4: 16 profile steps, -1 revolution steps, on buffers that already
hold one triangle. -/
theorem invalid_argument_leaves_buffers_witness :
    ((16 : Int) ≤ 0 ∨ (-1 : Int) ≤ 0)
    ∧ GenerateParametricShapeFrom2D ratOps
        { positions := [⟨0, 0, 0⟩, ⟨1, 0, 0⟩, ⟨0, 1, 0⟩],
          normals := [⟨0, 0, 1⟩, ⟨0, 0, 1⟩, ⟨0, 0, 1⟩], indices := [0, 1, 2] }
        lineProfile 16 (-1)
      = (GenStatus.InvalidArgument,
          { positions := [⟨0, 0, 0⟩, ⟨1, 0, 0⟩, ⟨0, 1, 0⟩],
            normals := [⟨0, 0, 1⟩, ⟨0, 0, 1⟩, ⟨0, 0, 1⟩], indices := [0, 1, 2] })
    ∧ GenerateParametricShapeFrom2Dv2 ratOps
        { positions := [⟨0, 0, 0⟩, ⟨1, 0, 0⟩, ⟨0, 1, 0⟩],
          normals := [⟨0, 0, 1⟩, ⟨0, 0, 1⟩, ⟨0, 0, 1⟩], indices := [0, 1, 2] }
        lineProfile 16 (-1)
      = (GenStatus.InvalidArgument,
          { positions := [⟨0, 0, 0⟩, ⟨1, 0, 0⟩, ⟨0, 1, 0⟩],
            normals := [⟨0, 0, 1⟩, ⟨0, 0, 1⟩, ⟨0, 0, 1⟩], indices := [0, 1, 2] }) :=
  ⟨by decide, invalid_argument_leaves_buffers ratOps _ lineProfile 16 (-1) (by decide)⟩

/-- C5: for every `i < profile_steps` and `j < revolution_steps` the index buffer of
the primary generator holds, as its block number `i * revolution_steps + j`, the two
triangles A = `(i,j), (i+1,j), (i+1,j+1)` and B = `(i,j), (i+1,j+1), (i,j+1)` in this
vertex order, where `(a,b)` stands for `vertexIndex revolution_steps a b`, the place
of grid sample `(a,b)` in the position buffer; the buffer has
`6 * profile_steps * revolution_steps` entries and every one of its blocks of six
is the block of such a quad, so no other triangle is emitted. -/
theorem primary_quad_triangles {R : Type} (ops : ScalarOps R)
    (profile : ProfileFunction R) (profile_steps revolution_steps : Nat)
    (hp : 1 ≤ profile_steps) (hr : 1 ≤ revolution_steps) :
    (∀ i j, i < profile_steps → j < revolution_steps →
        (((GenerateParametricShapeFrom2D ops (emptyBuffers R) profile
            profile_steps revolution_steps).2.indices.drop
              (6 * (i * revolution_steps + j))).take 6
          = [ vertexIndex revolution_steps i j,
              vertexIndex revolution_steps (i + 1) j,
              vertexIndex revolution_steps (i + 1) (j + 1),
              vertexIndex revolution_steps i j,
              vertexIndex revolution_steps (i + 1) (j + 1),
              vertexIndex revolution_steps i (j + 1) ]))
    ∧ (∀ a b, a ≤ profile_steps → b ≤ revolution_steps →
        (GenerateParametricShapeFrom2D ops (emptyBuffers R) profile
            profile_steps revolution_steps).2.positions[vertexIndex revolution_steps a b]?
          = some (revolvedPosition ops profile profile_steps revolution_steps
              (a : Int) (b : Int)))
    ∧ (GenerateParametricShapeFrom2D ops (emptyBuffers R) profile
        profile_steps revolution_steps).2.indices.length
        = 6 * (profile_steps * revolution_steps)
    ∧ (∀ q, q < profile_steps * revolution_steps →
        ∃ i j, i < profile_steps ∧ j < revolution_steps ∧ q = i * revolution_steps + j) := by
  rw [generate_valid ops profile _ _ hp hr]
  refine ⟨?_, ?_, ?_, ?_⟩
  · intro i j hi hj
    exact chunk_grid_flatMap (fun a b => quadIndices revolution_steps a b) 6
      profile_steps revolution_steps i j (fun _ _ => rfl) hi hj
  · intro a b ha hb
    exact getElem?_grid
      (fun a b => revolvedPosition ops profile profile_steps revolution_steps (a : Int) (b : Int))
      (profile_steps + 1) (revolution_steps + 1) a b (by omega) (by omega)
  · show (gridIndices profile_steps revolution_steps).length = _
    rw [gridIndices_length, Nat.mul_assoc]
  · intro q hq
    obtain ⟨h1, h2, h3⟩ := quad_of_block profile_steps revolution_steps q hq
    exact ⟨q / revolution_steps, q % revolution_steps, h1, h2, h3.symm⟩

/-- Witness of C5: the line profile with 1 profile step and 2 revolution steps; the
quad `(0, 1)` is the second block of the index buffer. -/
theorem primary_quad_triangles_witness :
    (1 ≤ 1 ∧ 1 ≤ 2)
    ∧ (GenerateParametricShapeFrom2D ratOps (emptyBuffers Rat) lineProfile
        (1 : Nat) (2 : Nat)).2.indices = [0, 3, 4, 0, 4, 1, 1, 4, 5, 1, 5, 2]
    ∧ (((GenerateParametricShapeFrom2D ratOps (emptyBuffers Rat) lineProfile
        (1 : Nat) (2 : Nat)).2.indices.drop (6 * (0 * 2 + 1))).take 6
        = [ vertexIndex 2 0 1, vertexIndex 2 (0 + 1) 1, vertexIndex 2 (0 + 1) (1 + 1),
            vertexIndex 2 0 1, vertexIndex 2 (0 + 1) (1 + 1), vertexIndex 2 0 (1 + 1) ]) :=
  ⟨⟨by decide, by decide⟩, by decide,
    (primary_quad_triangles ratOps lineProfile 1 2 (by decide) (by decide)).1
      0 1 (by decide) (by decide)⟩

end MeshGeneration

namespace SceneViewer

open MeshGeneration

/-- C7: the four generator calls of `main` pass the step counts (16,16), (16,16),
(64,32) and, for the v2 call, (1024,1024); in each of them `profile_steps ≥ 2` and
`revolution_steps ≥ 3`, and the call does not end in `InvalidArgument`. -/
theorem main_calls_in_domain {R : Type} (ops : ScalarOps R)
    (profiles : ProfileName → ProfileFunction R) :
    mainGeneratorCalls.map (fun c => (c.generator, c.profile_steps, c.revolution_steps))
      = [ (GeneratorName.GenerateParametricShapeFrom2D, 16, 16),
          (GeneratorName.GenerateParametricShapeFrom2D, 16, 16),
          (GeneratorName.GenerateParametricShapeFrom2D, 64, 32),
          (GeneratorName.GenerateParametricShapeFrom2Dv2, 1024, 1024) ]
    ∧ ∀ c ∈ mainGeneratorCalls,
        2 ≤ c.profile_steps ∧ 3 ≤ c.revolution_steps
        ∧ (runGeneratorCall ops profiles c).1 = GenStatus.Ok
        ∧ (runGeneratorCall ops profiles c).1 ≠ GenStatus.InvalidArgument := by
  refine ⟨rfl, ?_⟩
  intro c hc
  have hdom : 2 ≤ c.profile_steps ∧ 3 ≤ c.revolution_steps := by
    simp only [mainGeneratorCalls, List.mem_cons, List.mem_singleton, List.not_mem_nil,
      or_false] at hc
    rcases hc with h | h | h | h <;> rw [h] <;> exact ⟨by decide, by decide⟩
  have hok : (runGeneratorCall ops profiles c).1 = GenStatus.Ok := by
    unfold runGeneratorCall
    cases c.generator
    · exact generate_status ops _ _ _ _ (by omega) (by omega)
    · exact generateV2_status ops _ _ _ _ (by omega) (by omega)
  refine ⟨hdom.1, hdom.2, hok, ?_⟩
  rw [hok]
  decide

/-- Witness of C7: the v2 call of line 131. -/
theorem main_calls_in_domain_witness :
    ({ generator := GeneratorName.GenerateParametricShapeFrom2Dv2,
       profile := ProfileName.ParametricSpikes,
       profile_steps := 1024, revolution_steps := 1024 } : GeneratorCall) ∈ mainGeneratorCalls
    ∧ (runGeneratorCall ratOps (fun _ => lineProfile)
        { generator := GeneratorName.GenerateParametricShapeFrom2Dv2,
          profile := ProfileName.ParametricSpikes,
          profile_steps := 1024, revolution_steps := 1024 }).1 = GenStatus.Ok :=
  ⟨by decide,
    ((main_calls_in_domain ratOps (fun _ => lineProfile)).2 _ (by decide)).2.2.1⟩

end SceneViewer

namespace SceneViewer

/-! ### The render loop -/

theorem initFlagCheck_invariant (s : LoopState) (h : LoopInvariant s) :
    RenderPointInvariant (initFlagCheck s) := by
  rcases s with ⟨q, w, e, r, t, y, i, m, p, u, ml⟩
  unfold LoopInvariant RenderPointInvariant sceneFlagCount at h
  unfold RenderPointInvariant sceneFlagCount initFlagCheck
  cases q <;> cases w <;> cases e <;> cases r <;> cases t <;> cases y <;> cases i <;>
    cases m <;> simp_all

theorem sceneOneKey_invariant (k : FrameInput) (s : LoopState)
    (h : RenderPointInvariant s) : RenderPointInvariant (sceneOneKey k s) := by
  unfold sceneOneKey
  split
  · simp [RenderPointInvariant, sceneFlagCount]
  · exact h

theorem sceneTwoKey_invariant (k : FrameInput) (s : LoopState)
    (h : RenderPointInvariant s) : RenderPointInvariant (sceneTwoKey k s) := by
  unfold sceneTwoKey
  split
  · simp [RenderPointInvariant, sceneFlagCount]
  · exact h

theorem sceneThreeKey_invariant (k : FrameInput) (s : LoopState)
    (h : RenderPointInvariant s) : RenderPointInvariant (sceneThreeKey k s) := by
  unfold sceneThreeKey
  split
  · simp [RenderPointInvariant, sceneFlagCount]
  · exact h

theorem sceneFourKey_invariant (k : FrameInput) (s : LoopState)
    (h : RenderPointInvariant s) : RenderPointInvariant (sceneFourKey k s) := by
  unfold sceneFourKey
  split
  · simp [RenderPointInvariant, sceneFlagCount]
  · exact h

theorem sceneFiveKey_invariant (k : FrameInput) (s : LoopState)
    (h : RenderPointInvariant s) : RenderPointInvariant (sceneFiveKey k s) := by
  unfold sceneFiveKey
  split
  · simp [RenderPointInvariant, sceneFlagCount]
  · exact h

theorem sceneSixKey_invariant (k : FrameInput) (s : LoopState)
    (h : RenderPointInvariant s) : RenderPointInvariant (sceneSixKey k s) := by
  unfold sceneSixKey
  split
  · simp [RenderPointInvariant, sceneFlagCount]
  · exact h

theorem keyHandling_invariant (k : FrameInput) (s : LoopState) (h : LoopInvariant s) :
    RenderPointInvariant (keyHandling k s) :=
  sceneSixKey_invariant k _ (sceneFiveKey_invariant k _ (sceneFourKey_invariant k _
    (sceneThreeKey_invariant k _ (sceneTwoKey_invariant k _ (sceneOneKey_invariant k _
      (initFlagCheck_invariant s h))))))

/-- The render blocks leave the seven flags and the polygon mode as they are. -/
theorem renderBlocks_state (k : FrameInput) (s : LoopState) :
    (renderBlocks k s).state.flag_q = s.flag_q
    ∧ (renderBlocks k s).state.flag_w = s.flag_w
    ∧ (renderBlocks k s).state.flag_e = s.flag_e
    ∧ (renderBlocks k s).state.flag_r = s.flag_r
    ∧ (renderBlocks k s).state.flag_t = s.flag_t
    ∧ (renderBlocks k s).state.flag_y = s.flag_y
    ∧ (renderBlocks k s).state.flag_init = s.flag_init
    ∧ (renderBlocks k s).state.polygon_mode = s.polygon_mode := by
  unfold renderBlocks renderSceneSix renderSceneFive renderSceneFour renderSceneOneTwoThree
  split_ifs <;> simp

theorem renderBlocks_invariant (k : FrameInput) (s : LoopState)
    (h : RenderPointInvariant s) : RenderPointInvariant (renderBlocks k s).state := by
  obtain ⟨hq, hw, he, hr, ht, hy, hi, hm⟩ := renderBlocks_state k s
  unfold RenderPointInvariant sceneFlagCount at h ⊢
  rw [hq, hw, he, hr, ht, hy, hi, hm]
  exact h

/-- Every draw call of an iteration is issued under the polygon mode that the key
handling left. -/
theorem renderBlocks_draws_mode (k : FrameInput) (s : LoopState) (d : DrawCall)
    (hd : d ∈ (renderBlocks k s).draws) : d.polygon_mode = s.polygon_mode := by
  unfold renderBlocks renderSceneSix renderSceneFive renderSceneFour
    renderSceneOneTwoThree at hd
  split_ifs at hd <;> simp [drawElements] at hd <;> aesop

theorem runFrames_snoc (s : LoopState) (ks : List FrameInput) (k : FrameInput) :
    runFrames s (ks ++ [k]) = (frame k (runFrames s ks)).state := by
  simp [runFrames, List.foldl_append]

theorem runFrames_invariant (ks : List FrameInput) :
    LoopInvariant (runFrames initialState ks) := by
  induction ks using List.reverseRecOn with
  | nil =>
      right
      simp [runFrames, initialState, sceneFlagCount]
  | append_singleton ks k ih =>
      rw [runFrames_snoc]
      exact Or.inl (renderBlocks_invariant k _ (keyHandling_invariant k _ ih))

theorem renderPoint_invariant (ks : List FrameInput) (k : FrameInput) :
    RenderPointInvariant (renderPoint ks k) :=
  keyHandling_invariant k _ (runFrames_invariant ks)

end SceneViewer

namespace SceneViewer

theorem initFlagCheck_chosen (s : LoopState) (h : SceneChosen s) :
    SceneChosen (initFlagCheck s) := by
  rcases s with ⟨q, w, e, r, t, y, i, m, p, u, ml⟩
  unfold SceneChosen sceneFlagCount at h
  unfold SceneChosen sceneFlagCount initFlagCheck
  cases q <;> cases w <;> cases e <;> cases r <;> cases t <;> cases y <;> simp_all

theorem sceneOneKey_chosen (k : FrameInput) (s : LoopState)
    (h : k.state_q = KeyState.GLFW_PRESS ∨ SceneChosen s) : SceneChosen (sceneOneKey k s) := by
  unfold sceneOneKey
  split
  · simp [SceneChosen, sceneFlagCount]
  · rcases h with h | h
    · contradiction
    · exact h

theorem sceneTwoKey_chosen (k : FrameInput) (s : LoopState)
    (h : k.state_w = KeyState.GLFW_PRESS ∨ SceneChosen s) : SceneChosen (sceneTwoKey k s) := by
  unfold sceneTwoKey
  split
  · simp [SceneChosen, sceneFlagCount]
  · rcases h with h | h
    · contradiction
    · exact h

theorem sceneThreeKey_chosen (k : FrameInput) (s : LoopState)
    (h : k.state_e = KeyState.GLFW_PRESS ∨ SceneChosen s) :
    SceneChosen (sceneThreeKey k s) := by
  unfold sceneThreeKey
  split
  · simp [SceneChosen, sceneFlagCount]
  · rcases h with h | h
    · contradiction
    · exact h

theorem sceneFourKey_chosen (k : FrameInput) (s : LoopState)
    (h : k.state_r = KeyState.GLFW_PRESS ∨ SceneChosen s) : SceneChosen (sceneFourKey k s) := by
  unfold sceneFourKey
  split
  · simp [SceneChosen, sceneFlagCount]
  · rcases h with h | h
    · contradiction
    · exact h

theorem sceneFiveKey_chosen (k : FrameInput) (s : LoopState)
    (h : k.state_t = KeyState.GLFW_PRESS ∨ SceneChosen s) : SceneChosen (sceneFiveKey k s) := by
  unfold sceneFiveKey
  split
  · simp [SceneChosen, sceneFlagCount]
  · rcases h with h | h
    · contradiction
    · exact h

theorem sceneSixKey_chosen (k : FrameInput) (s : LoopState)
    (h : k.state_y = KeyState.GLFW_PRESS ∨ SceneChosen s) : SceneChosen (sceneSixKey k s) := by
  unfold sceneSixKey
  split
  · simp [SceneChosen, sceneFlagCount]
  · rcases h with h | h
    · contradiction
    · exact h

theorem keyHandling_chosen (k : FrameInput) (s : LoopState)
    (h : anyScenePressed k = true ∨ SceneChosen s) : SceneChosen (keyHandling k s) := by
  unfold keyHandling
  apply sceneSixKey_chosen
  by_cases hy : k.state_y = KeyState.GLFW_PRESS
  · exact Or.inl hy
  right
  apply sceneFiveKey_chosen
  by_cases ht : k.state_t = KeyState.GLFW_PRESS
  · exact Or.inl ht
  right
  apply sceneFourKey_chosen
  by_cases hr : k.state_r = KeyState.GLFW_PRESS
  · exact Or.inl hr
  right
  apply sceneThreeKey_chosen
  by_cases he : k.state_e = KeyState.GLFW_PRESS
  · exact Or.inl he
  right
  apply sceneTwoKey_chosen
  by_cases hw : k.state_w = KeyState.GLFW_PRESS
  · exact Or.inl hw
  right
  apply sceneOneKey_chosen
  by_cases hq : k.state_q = KeyState.GLFW_PRESS
  · exact Or.inl hq
  right
  apply initFlagCheck_chosen
  rcases h with h | h
  · simp [anyScenePressed, hq, hw, he, hr, ht, hy] at h
  · exact h

theorem renderBlocks_chosen (k : FrameInput) (s : LoopState) (h : SceneChosen s) :
    SceneChosen (renderBlocks k s).state := by
  obtain ⟨hq, hw, he, hr, ht, hy, hi, _⟩ := renderBlocks_state k s
  unfold SceneChosen sceneFlagCount at h ⊢
  rw [hq, hw, he, hr, ht, hy, hi]
  exact h

theorem runFrames_chosen (ks : List FrameInput) (h : ks.any anyScenePressed = true) :
    SceneChosen (runFrames initialState ks) := by
  induction ks using List.reverseRecOn with
  | nil => simp at h
  | append_singleton ks k ih =>
      rw [runFrames_snoc]
      apply renderBlocks_chosen
      apply keyHandling_chosen
      rw [List.any_append, Bool.or_eq_true] at h
      rcases h with h | h
      · exact Or.inr (ih h)
      · left
        simpa using h

/-! ### Claims on the render loop -/

/-- C8: the six scene flags are mutually exclusive: from the initial state, after
the key-handling part of every iteration of the render loop and whatever keys are
down, at most one of `flag_q`, `flag_w`, `flag_e`, `flag_r`, `flag_t`, `flag_y` is
true. -/
theorem scene_flags_mutually_exclusive (ks : List FrameInput) (k : FrameInput) :
    [ (keyHandling k (runFrames initialState ks)).flag_q,
      (keyHandling k (runFrames initialState ks)).flag_w,
      (keyHandling k (runFrames initialState ks)).flag_e,
      (keyHandling k (runFrames initialState ks)).flag_r,
      (keyHandling k (runFrames initialState ks)).flag_t,
      (keyHandling k (runFrames initialState ks)).flag_y ].count true ≤ 1 :=
  (renderPoint_invariant ks k).1

/-- C9: where the render blocks are chosen, `flag_init = true` implies that the six
scene flags are all false; and once a scene key has been down, in this iteration or
an earlier one, `flag_init` is false there. -/
theorem init_flag_only_without_scene (ks : List FrameInput) (k : FrameInput) :
    ((renderPoint ks k).flag_init = true →
      (renderPoint ks k).flag_q = false ∧ (renderPoint ks k).flag_w = false
      ∧ (renderPoint ks k).flag_e = false ∧ (renderPoint ks k).flag_r = false
      ∧ (renderPoint ks k).flag_t = false ∧ (renderPoint ks k).flag_y = false)
    ∧ ((ks ++ [k]).any anyScenePressed = true → (renderPoint ks k).flag_init = false) := by
  refine ⟨(renderPoint_invariant ks k).2.1, ?_⟩
  intro h
  have hc : SceneChosen (renderPoint ks k) := by
    apply keyHandling_chosen
    rw [List.any_append, Bool.or_eq_true] at h
    rcases h with h | h
    · exact Or.inr (runFrames_chosen ks h)
    · left
      simpa using h
  exact hc.2

/-- Witness of C9: the first iteration with no key down has the init flag up and no
scene flag; after an iteration with Q down, an iteration with no key down has the
init flag down. -/
theorem init_flag_only_without_scene_witness :
    ((renderPoint [] noKeyInput).flag_init = true
      ∧ (renderPoint [] noKeyInput).flag_q = false ∧ (renderPoint [] noKeyInput).flag_w = false
      ∧ (renderPoint [] noKeyInput).flag_e = false ∧ (renderPoint [] noKeyInput).flag_r = false
      ∧ (renderPoint [] noKeyInput).flag_t = false ∧ (renderPoint [] noKeyInput).flag_y = false)
    ∧ (([keyQInput] ++ [noKeyInput]).any anyScenePressed = true
      ∧ (renderPoint [keyQInput] noKeyInput).flag_init = false) :=
  ⟨⟨by decide, (init_flag_only_without_scene [] noKeyInput).1 (by decide)⟩,
    ⟨by decide, (init_flag_only_without_scene [keyQInput] noKeyInput).2 (by decide)⟩⟩

/-- C10: wireframe is on in scene one and off in scenes two to six: where the render
blocks are chosen the polygon mode is `GL_LINE` exactly when `flag_init` or `flag_q`
is true and `GL_FILL` exactly when one of `flag_w`, `flag_e`, `flag_r`, `flag_t`,
`flag_y` is true, and every draw call of the iteration is issued under that mode. -/
theorem wireframe_matches_scene (ks : List FrameInput) (k : FrameInput) :
    ((renderPoint ks k).polygon_mode = PolygonMode.GL_LINE ↔
      ((renderPoint ks k).flag_init = true ∨ (renderPoint ks k).flag_q = true))
    ∧ ((renderPoint ks k).polygon_mode = PolygonMode.GL_FILL ↔
      ((renderPoint ks k).flag_w = true ∨ (renderPoint ks k).flag_e = true
        ∨ (renderPoint ks k).flag_r = true ∨ (renderPoint ks k).flag_t = true
        ∨ (renderPoint ks k).flag_y = true))
    ∧ ∀ d ∈ (frame k (runFrames initialState ks)).draws,
        (d.polygon_mode = PolygonMode.GL_LINE ↔
          ((renderPoint ks k).flag_init = true ∨ (renderPoint ks k).flag_q = true))
        ∧ (d.polygon_mode = PolygonMode.GL_FILL ↔
          ((renderPoint ks k).flag_w = true ∨ (renderPoint ks k).flag_e = true
            ∨ (renderPoint ks k).flag_r = true ∨ (renderPoint ks k).flag_t = true
            ∨ (renderPoint ks k).flag_y = true)) := by
  obtain ⟨_, _, hl, hf⟩ := renderPoint_invariant ks k
  refine ⟨hl, hf, ?_⟩
  intro d hd
  have hm : d.polygon_mode = (renderPoint ks k).polygon_mode :=
    renderBlocks_draws_mode k _ d hd
  rw [hm]
  exact ⟨hl, hf⟩

/-- Witness of C10: after an iteration with W down, an iteration with T down draws
the first sphere of scene five filled. -/
theorem wireframe_matches_scene_witness :
    ({ block := RenderBlock.scene_five, vao := VAOName.sphereVAO,
       program := Program.scene_four_obj2, polygon_mode := PolygonMode.GL_FILL } : DrawCall)
      ∈ (frame keyTInput (runFrames initialState [keyWInput])).draws
    ∧ (PolygonMode.GL_FILL = PolygonMode.GL_FILL ↔
        ((renderPoint [keyWInput] keyTInput).flag_w = true
          ∨ (renderPoint [keyWInput] keyTInput).flag_e = true
          ∨ (renderPoint [keyWInput] keyTInput).flag_r = true
          ∨ (renderPoint [keyWInput] keyTInput).flag_t = true
          ∨ (renderPoint [keyWInput] keyTInput).flag_y = true)) :=
  ⟨by decide,
    ((wireframe_matches_scene [keyWInput] keyTInput).2.2
      { block := RenderBlock.scene_five, vao := VAOName.sphereVAO,
        program := Program.scene_four_obj2, polygon_mode := PolygonMode.GL_FILL }
      (by decide)).2⟩

end SceneViewer

namespace SceneViewer

/-- The render blocks entered in one iteration, read off the flags that the key
handling left. -/
theorem renderBlocks_executed_eq (k : FrameInput) (s : LoopState) :
    (renderBlocks k s).executed =
      (if s.flag_init = true ∨ s.flag_q = true ∨ s.flag_w = true ∨ s.flag_e = true
        then [RenderBlock.scene_one_two_three] else [])
      ++ (if s.flag_r = true then [RenderBlock.scene_four] else [])
      ++ (if s.flag_t = true then [RenderBlock.scene_five] else [])
      ++ (if s.flag_y = true then [RenderBlock.scene_six] else []) := by
  unfold renderBlocks renderSceneSix renderSceneFive renderSceneFour renderSceneOneTwoThree
  split_ifs <;> simp_all

theorem renderBlocks_executed (k : FrameInput) (s : LoopState)
    (h : RenderPointInvariant s) :
    (renderBlocks k s).executed.length = 1
    ∧ (RenderBlock.scene_one_two_three ∈ (renderBlocks k s).executed ↔
        (s.flag_init = true ∨ s.flag_q = true ∨ s.flag_w = true ∨ s.flag_e = true))
    ∧ (RenderBlock.scene_four ∈ (renderBlocks k s).executed ↔ s.flag_r = true)
    ∧ (RenderBlock.scene_five ∈ (renderBlocks k s).executed ↔ s.flag_t = true)
    ∧ (RenderBlock.scene_six ∈ (renderBlocks k s).executed ↔ s.flag_y = true) := by
  rw [renderBlocks_executed_eq]
  rcases s with ⟨q, w, e, r, t, y, i, m, p, u, ml⟩
  unfold RenderPointInvariant sceneFlagCount at h
  cases q <;> cases w <;> cases e <;> cases r <;> cases t <;> cases y <;> cases i <;>
    cases m <;> simp_all

theorem sceneFlags_renderBlocks (k : FrameInput) (s : LoopState) :
    sceneFlags (renderBlocks k s).state = sceneFlags s := by
  obtain ⟨hq, hw, he, hr, ht, hy, _, _⟩ := renderBlocks_state k s
  unfold sceneFlags
  rw [hq, hw, he, hr, ht, hy]

theorem sceneFlags_initFlagCheck (s : LoopState) :
    sceneFlags (initFlagCheck s) = sceneFlags s := by
  unfold initFlagCheck
  split <;> rfl

end SceneViewer

namespace SceneViewer

theorem sceneFlags_frame (k : FrameInput) (s : LoopState) :
    sceneFlags (frame k s).state = sceneFlags (keyHandling k s) :=
  sceneFlags_renderBlocks k (keyHandling k s)

theorem sceneFlags_keyHandling_none (k : FrameInput) (s : LoopState)
    (hq : k.state_q ≠ KeyState.GLFW_PRESS) (hw : k.state_w ≠ KeyState.GLFW_PRESS)
    (he : k.state_e ≠ KeyState.GLFW_PRESS) (hr : k.state_r ≠ KeyState.GLFW_PRESS)
    (ht : k.state_t ≠ KeyState.GLFW_PRESS) (hy : k.state_y ≠ KeyState.GLFW_PRESS) :
    sceneFlags (keyHandling k s) = sceneFlags s := by
  unfold keyHandling sceneSixKey sceneFiveKey sceneFourKey sceneThreeKey sceneTwoKey sceneOneKey
  rw [if_neg hy, if_neg ht, if_neg hr, if_neg he, if_neg hw, if_neg hq]
  exact sceneFlags_initFlagCheck s

/-- C11: in every iteration of the render loop, whatever keys are down and whatever
iterations came before, exactly one of the four render blocks executes: the
four-mesh block when `flag_init`, `flag_q`, `flag_w` or `flag_e` is true, the
scene-four block when `flag_r` is, the scene-five block when `flag_t` is, the
scene-six block when `flag_y` is. -/
theorem exactly_one_render_block (ks : List FrameInput) (k : FrameInput) :
    (frame k (runFrames initialState ks)).executed.length = 1
    ∧ (RenderBlock.scene_one_two_three ∈ (frame k (runFrames initialState ks)).executed ↔
        ((renderPoint ks k).flag_init = true ∨ (renderPoint ks k).flag_q = true
          ∨ (renderPoint ks k).flag_w = true ∨ (renderPoint ks k).flag_e = true))
    ∧ (RenderBlock.scene_four ∈ (frame k (runFrames initialState ks)).executed ↔
        (renderPoint ks k).flag_r = true)
    ∧ (RenderBlock.scene_five ∈ (frame k (runFrames initialState ks)).executed ↔
        (renderPoint ks k).flag_t = true)
    ∧ (RenderBlock.scene_six ∈ (frame k (runFrames initialState ks)).executed ↔
        (renderPoint ks k).flag_y = true) :=
  renderBlocks_executed k (renderPoint ks k) (renderPoint_invariant ks k)

/-- C12: the scene flags after an iteration depend only on the keys of that
iteration and the scene flags before it: when a scene key is down, exactly the flag
of the pressed key that comes last in the order Q, W, E, R, T, Y is true afterwards
(Y wins over every other key), and when none is down the six flags keep their
values. -/
theorem last_pressed_key_wins (k : FrameInput) (s : LoopState) :
    (k.state_y = KeyState.GLFW_PRESS →
      sceneFlags (frame k s).state = [false, false, false, false, false, true])
    ∧ (k.state_t = KeyState.GLFW_PRESS → k.state_y ≠ KeyState.GLFW_PRESS →
      sceneFlags (frame k s).state = [false, false, false, false, true, false])
    ∧ (k.state_r = KeyState.GLFW_PRESS → k.state_t ≠ KeyState.GLFW_PRESS →
      k.state_y ≠ KeyState.GLFW_PRESS →
      sceneFlags (frame k s).state = [false, false, false, true, false, false])
    ∧ (k.state_e = KeyState.GLFW_PRESS → k.state_r ≠ KeyState.GLFW_PRESS →
      k.state_t ≠ KeyState.GLFW_PRESS → k.state_y ≠ KeyState.GLFW_PRESS →
      sceneFlags (frame k s).state = [false, false, true, false, false, false])
    ∧ (k.state_w = KeyState.GLFW_PRESS → k.state_e ≠ KeyState.GLFW_PRESS →
      k.state_r ≠ KeyState.GLFW_PRESS → k.state_t ≠ KeyState.GLFW_PRESS →
      k.state_y ≠ KeyState.GLFW_PRESS →
      sceneFlags (frame k s).state = [false, true, false, false, false, false])
    ∧ (k.state_q = KeyState.GLFW_PRESS → k.state_w ≠ KeyState.GLFW_PRESS →
      k.state_e ≠ KeyState.GLFW_PRESS → k.state_r ≠ KeyState.GLFW_PRESS →
      k.state_t ≠ KeyState.GLFW_PRESS → k.state_y ≠ KeyState.GLFW_PRESS →
      sceneFlags (frame k s).state = [true, false, false, false, false, false])
    ∧ (k.state_q ≠ KeyState.GLFW_PRESS → k.state_w ≠ KeyState.GLFW_PRESS →
      k.state_e ≠ KeyState.GLFW_PRESS → k.state_r ≠ KeyState.GLFW_PRESS →
      k.state_t ≠ KeyState.GLFW_PRESS → k.state_y ≠ KeyState.GLFW_PRESS →
      sceneFlags (frame k s).state = sceneFlags s)
    ∧ (∀ s2 : LoopState, sceneFlags s2 = sceneFlags s →
      sceneFlags (frame k s2).state = sceneFlags (frame k s).state) := by
  have hY : ∀ s1 : LoopState, k.state_y = KeyState.GLFW_PRESS →
      sceneFlags (frame k s1).state = [false, false, false, false, false, true] := by
    intro s1 hy
    rw [sceneFlags_frame]
    unfold keyHandling sceneSixKey
    rw [if_pos hy]
    rfl
  have hT : ∀ s1 : LoopState, k.state_t = KeyState.GLFW_PRESS →
      k.state_y ≠ KeyState.GLFW_PRESS →
      sceneFlags (frame k s1).state = [false, false, false, false, true, false] := by
    intro s1 ht hy
    rw [sceneFlags_frame]
    unfold keyHandling sceneSixKey sceneFiveKey
    rw [if_neg hy, if_pos ht]
    rfl
  have hR : ∀ s1 : LoopState, k.state_r = KeyState.GLFW_PRESS →
      k.state_t ≠ KeyState.GLFW_PRESS → k.state_y ≠ KeyState.GLFW_PRESS →
      sceneFlags (frame k s1).state = [false, false, false, true, false, false] := by
    intro s1 hr ht hy
    rw [sceneFlags_frame]
    unfold keyHandling sceneSixKey sceneFiveKey sceneFourKey
    rw [if_neg hy, if_neg ht, if_pos hr]
    rfl
  have hE : ∀ s1 : LoopState, k.state_e = KeyState.GLFW_PRESS →
      k.state_r ≠ KeyState.GLFW_PRESS → k.state_t ≠ KeyState.GLFW_PRESS →
      k.state_y ≠ KeyState.GLFW_PRESS →
      sceneFlags (frame k s1).state = [false, false, true, false, false, false] := by
    intro s1 he hr ht hy
    rw [sceneFlags_frame]
    unfold keyHandling sceneSixKey sceneFiveKey sceneFourKey sceneThreeKey
    rw [if_neg hy, if_neg ht, if_neg hr, if_pos he]
    rfl
  have hW : ∀ s1 : LoopState, k.state_w = KeyState.GLFW_PRESS →
      k.state_e ≠ KeyState.GLFW_PRESS → k.state_r ≠ KeyState.GLFW_PRESS →
      k.state_t ≠ KeyState.GLFW_PRESS → k.state_y ≠ KeyState.GLFW_PRESS →
      sceneFlags (frame k s1).state = [false, true, false, false, false, false] := by
    intro s1 hw he hr ht hy
    rw [sceneFlags_frame]
    unfold keyHandling sceneSixKey sceneFiveKey sceneFourKey sceneThreeKey sceneTwoKey
    rw [if_neg hy, if_neg ht, if_neg hr, if_neg he, if_pos hw]
    rfl
  have hQ : ∀ s1 : LoopState, k.state_q = KeyState.GLFW_PRESS →
      k.state_w ≠ KeyState.GLFW_PRESS → k.state_e ≠ KeyState.GLFW_PRESS →
      k.state_r ≠ KeyState.GLFW_PRESS → k.state_t ≠ KeyState.GLFW_PRESS →
      k.state_y ≠ KeyState.GLFW_PRESS →
      sceneFlags (frame k s1).state = [true, false, false, false, false, false] := by
    intro s1 hq hw he hr ht hy
    rw [sceneFlags_frame]
    unfold keyHandling sceneSixKey sceneFiveKey sceneFourKey sceneThreeKey sceneTwoKey
      sceneOneKey
    rw [if_neg hy, if_neg ht, if_neg hr, if_neg he, if_neg hw, if_pos hq]
    rfl
  have hN : ∀ s1 : LoopState, k.state_q ≠ KeyState.GLFW_PRESS →
      k.state_w ≠ KeyState.GLFW_PRESS → k.state_e ≠ KeyState.GLFW_PRESS →
      k.state_r ≠ KeyState.GLFW_PRESS → k.state_t ≠ KeyState.GLFW_PRESS →
      k.state_y ≠ KeyState.GLFW_PRESS →
      sceneFlags (frame k s1).state = sceneFlags s1 := by
    intro s1 hq hw he hr ht hy
    rw [sceneFlags_frame]
    exact sceneFlags_keyHandling_none k s1 hq hw he hr ht hy
  refine ⟨hY s, hT s, hR s, hE s, hW s, hQ s, hN s, ?_⟩
  intro s2 h2
  by_cases hy : k.state_y = KeyState.GLFW_PRESS
  · rw [hY s2 hy, hY s hy]
  by_cases ht : k.state_t = KeyState.GLFW_PRESS
  · rw [hT s2 ht hy, hT s ht hy]
  by_cases hr : k.state_r = KeyState.GLFW_PRESS
  · rw [hR s2 hr ht hy, hR s hr ht hy]
  by_cases he : k.state_e = KeyState.GLFW_PRESS
  · rw [hE s2 he hr ht hy, hE s he hr ht hy]
  by_cases hw : k.state_w = KeyState.GLFW_PRESS
  · rw [hW s2 hw he hr ht hy, hW s hw he hr ht hy]
  by_cases hq : k.state_q = KeyState.GLFW_PRESS
  · rw [hQ s2 hq hw he hr ht hy, hQ s hq hw he hr ht hy]
  rw [hN s2 hq hw he hr ht hy, hN s hq hw he hr ht hy, h2]

/-- Witness of C12: with Q, E and T down together the flag of T is the one set; with
no key down after an iteration with W down, the flag of W stays. -/
theorem last_pressed_key_wins_witness :
    (keyQETInput.state_t = KeyState.GLFW_PRESS ∧ keyQETInput.state_y ≠ KeyState.GLFW_PRESS
      ∧ sceneFlags (frame keyQETInput initialState).state
          = [false, false, false, false, true, false])
    ∧ (sceneFlags (frame noKeyInput (frame keyWInput initialState).state).state
          = sceneFlags (frame keyWInput initialState).state
      ∧ sceneFlags (frame keyWInput initialState).state
          = [false, true, false, false, false, false]) :=
  ⟨⟨by decide, by decide,
      (last_pressed_key_wins keyQETInput initialState).2.1 (by decide) (by decide)⟩,
    ⟨(last_pressed_key_wins noKeyInput (frame keyWInput initialState).state).2.2.2.2.2.2.1
        (by decide) (by decide) (by decide) (by decide) (by decide) (by decide),
      by decide⟩⟩

end SceneViewer
